import Mathlib

/-!
Verification of the gambletron backtesting core against its specification.

The Python sources under `src/` are shallowly embedded: floats become `ℚ`
(float NaN and infinity outcomes are represented by explicit constructors
where the code can produce them), pandas series and dicts become lists,
strategy signal functions become per-bar lists of optional signals where
`none` models the signal function raising an exception on that bar, and
timestamps become natural-number bar indices.
-/

/-! ## Execution model (src/src/backtesting/advanced.py, class ExecutionMetrics) -/

/-- Realistic execution metrics of `AdvancedBacktester`
(fields `slippage_bps`, `commission_pct`, `spread_bps`). -/
structure ExecutionMetrics where
  slippage_bps : ℚ
  commission_pct : ℚ
  spread_bps : ℚ
deriving DecidableEq

/-- The default `ExecutionMetrics()` construction:
slippage 2 bps, commission 0.1 percent, spread 1.5 bps. -/
def defaultExecution : ExecutionMetrics := ⟨2, 1/1000, 3/2⟩

/-- Embedding of `ExecutionMetrics.get_slippage_multiplier`:
`base = 1 + slippage_bps/10000`, `spread = 1 + spread_bps/10000`;
returns `base * spread` for `"buy"` and `1 / (base * spread)` otherwise. -/
def ExecutionMetrics.get_slippage_multiplier (ex : ExecutionMetrics) (direction : String) : ℚ :=
  let base := 1 + ex.slippage_bps / 10000
  let spread := 1 + ex.spread_bps / 10000
  if direction = "buy" then base * spread else 1 / (base * spread)

/-! ## Metric helpers (src/src/utils/helpers.py) -/

/-- Embedding of `calculate_profit_factor` over the `pnl` column of the
trades frame: `gross_profit` is the sum of positive entries, `gross_loss`
the absolute value of the sum of negative entries, and the result is
`gross_profit / gross_loss` when `gross_loss > 0` and `0.0` otherwise. -/
def calculate_profit_factor (pnls : List ℚ) : ℚ :=
  let gross_profit := (pnls.filter (fun x => 0 < x)).sum
  let gross_loss := |(pnls.filter (fun x => x < 0)).sum|
  if 0 < gross_loss then gross_profit / gross_loss else 0

/-- Mean of a pandas series: NaN (here `none`) on the empty series. -/
def seriesMean (xs : List ℚ) : Option ℚ :=
  if xs.isEmpty then none else some (xs.sum / xs.length)

/-- Sample variance of a pandas series (`Series.std` squared, `ddof = 1`):
NaN (here `none`) when the series has fewer than two entries. -/
def seriesVarSample (xs : List ℚ) : Option ℚ :=
  match seriesMean xs with
  | none => none
  | some m =>
      if xs.length < 2 then none
      else some ((xs.map (fun x => (x - m) ^ 2)).sum / ((xs.length : ℚ) - 1))

/-- Outcome of the float expression
`sqrt(periods) * excess.mean() / excess.std()`.  `val m v` stands for the
finite value `sqrt(periods) * m / sqrt(v)` with `v > 0`; `nan`, `posInf`
and `negInf` are the IEEE outcomes when the mean or the standard deviation
is NaN or the standard deviation is zero.  No constructor raises: the
Python function body contains no `raise` and numpy float division by zero
yields inf or NaN. -/
inductive SharpeOutcome where
  | nan : SharpeOutcome
  | posInf : SharpeOutcome
  | negInf : SharpeOutcome
  | val (m v : ℚ) : SharpeOutcome
deriving DecidableEq

/-- Embedding of `calculate_sharpe_ratio`: subtracts the per-period
risk-free rate from every return and classifies
`sqrt(periods_per_year) * excess.mean() / excess.std()` as a float
outcome. -/
def calculate_sharpe_ratio (returns : List ℚ) (risk_free_rate : ℚ)
    (periods_per_year : ℕ) : SharpeOutcome :=
  let excess := returns.map (fun r => r - risk_free_rate / periods_per_year)
  match seriesMean excess, seriesVarSample excess with
  | none, _ => .nan
  | some _, none => .nan
  | some m, some v =>
      if v = 0 then (if m = 0 then .nan else if 0 < m then .posInf else .negInf)
      else .val m v

/-! ## Position sizing (src/src/risk_management/risk.py, class PositionSizer) -/

namespace PositionSizer

/-- Embedding of `PositionSizer.kelly_criterion`: returns 0 when
`avg_loss == 0 or win_rate == 0`, otherwise
`max(0, min(kelly * kelly_fraction, 1.0))` with
`kelly = (win_rate*avg_win - (1-win_rate)*avg_loss) / avg_win`. -/
def kelly_criterion (win_rate avg_win avg_loss kelly_fraction : ℚ) : ℚ :=
  if avg_loss = 0 ∨ win_rate = 0 then 0
  else
    let kelly := (win_rate * avg_win - (1 - win_rate) * avg_loss) / avg_win
    max 0 (min (kelly * kelly_fraction) 1)

end PositionSizer

/-- The specification's `clamp(x, lo, hi)` (from the spec's words in
section 4.4). -/
def clamp (x lo hi : ℚ) : ℚ := max lo (min x hi)

/-! ## Advanced backtester (src/src/backtesting/advanced.py, class AdvancedBacktester)

`run(df, signal_func, symbol, warmup_periods)` is embedded with the `close`
column of `df` as `closes : List ℚ` and `signal_func` as a per-bar list
`sigs : List (Option (String × ℚ))` parallel to `closes` — since `df` is
fixed for the whole run, the value of `signal_func(df.iloc[:i+1])` is a
function of the bar index `i`; `none` models the call raising an exception
on that bar, which the `try/except` of the source turns into `("HOLD", 0.0)`.
The local `capital_high`, written but never read by the source, is omitted. -/

/-- An entry in `self.trades` of `AdvancedBacktester` (`Trade` dataclass);
`slippage_cost`, always 0 in the source, is omitted, and timestamps are bar
indices. -/
structure AdvTrade where
  symbol : String
  entry_idx : ℕ
  exit_idx : ℕ
  entry_price : ℚ
  exit_price : ℚ
  position_size : ℚ
  gross_pnl : ℚ
  net_pnl : ℚ
  net_pnl_pct : ℚ
  commission_paid : ℚ
  holding_bars : ℕ
  reason : String
  confidence : ℚ
deriving DecidableEq

/-- The open-position local variables of `AdvancedBacktester.run`
(`entry_price`, `position_size`, `entry_time` as a bar index,
`entry_confidence`), bundled with `position == "LONG"`. -/
structure AdvPosition where
  entry_price : ℚ
  position_size : ℚ
  entry_idx : ℕ
  entry_confidence : ℚ
deriving DecidableEq

/-- The mutable state of `AdvancedBacktester` during `run`:
`self.capital`, `self.equity_curve`, `self.trades` and the loop-local
`position`. -/
structure AdvState where
  capital : ℚ
  equity_curve : List ℚ
  trades : List AdvTrade
  position : Option AdvPosition
deriving DecidableEq

/-- One iteration of the main backtest loop of `AdvancedBacktester.run`
(bar index `i`, close `current_price`, signal `sig`): the entry branch, the
exit branch (which appends the realized capital to the equity curve), and
the unconditional equity-curve update at the end of the iteration. -/
def AdvancedBacktester.step (ex : ExecutionMetrics) (max_position_pct : ℚ)
    (symbol : String) (i : ℕ) (current_price : ℚ)
    (sig : Option (String × ℚ)) (st : AdvState) : AdvState :=
  let sc := match sig with
    | some p => p
    | none => ("HOLD", (0 : ℚ))
  let signal := sc.1
  let confidence := sc.2
  let st1 :=
    if signal = "BUY" ∧ st.position = none ∧ 3/10 < confidence then
      let position_size := st.capital * max_position_pct / current_price
      let entry_price := current_price * ex.get_slippage_multiplier "buy"
      { st with position := some ⟨entry_price, position_size, i, confidence⟩ }
    else
      match st.position with
      | some pos =>
          if signal = "SELL" then
            let exit_price := current_price * ex.get_slippage_multiplier "sell"
            let gross_pnl := (exit_price - pos.entry_price) * pos.position_size
            let commission := |pos.entry_price * pos.position_size| * ex.commission_pct
              + |exit_price * pos.position_size| * ex.commission_pct
            let net_pnl := gross_pnl - commission
            let tr : AdvTrade :=
              ⟨symbol, pos.entry_idx, i, pos.entry_price, exit_price,
               pos.position_size, gross_pnl, net_pnl,
               (exit_price - pos.entry_price) / pos.entry_price, commission,
               i - pos.entry_idx, "signal", pos.entry_confidence⟩
            { capital := st.capital + net_pnl,
              equity_curve := st.equity_curve ++ [st.capital + net_pnl],
              trades := st.trades ++ [tr],
              position := none }
          else st
      | none => st
  match st1.position with
  | none => { st1 with equity_curve := st1.equity_curve ++ [st1.capital] }
  | some pos =>
      { st1 with equity_curve :=
          st1.equity_curve ++ [st1.capital + (current_price - pos.entry_price) * pos.position_size] }

/-- The main loop `for i in range(warmup_periods, len(df))` of
`AdvancedBacktester.run`, folded over the `(close, signal)` pairs that
remain after the warm-up, carrying the running bar index. -/
def AdvancedBacktester.loop (ex : ExecutionMetrics) (max_position_pct : ℚ)
    (symbol : String) : ℕ → List (ℚ × Option (String × ℚ)) → AdvState → AdvState
  | _, [], st => st
  | i, pr :: rest, st =>
      AdvancedBacktester.loop ex max_position_pct symbol (i + 1) rest
        (AdvancedBacktester.step ex max_position_pct symbol i pr.1 pr.2 st)

/-- Embedding of `AdvancedBacktester.run`: the state starts as
`capital = initial_capital`, `equity_curve = [initial_capital]`, no trades,
no position; the main loop runs over the bars from `warmup_periods`; any
position still open afterwards is closed at the raw final close with
`reason = "end_of_data"` (no equity-curve append there, as in the source). -/
def AdvancedBacktester.run (ex : ExecutionMetrics)
    (max_position_pct initial_capital : ℚ) (symbol : String)
    (closes : List ℚ) (sigs : List (Option (String × ℚ)))
    (warmup_periods : ℕ) : AdvState :=
  let st0 : AdvState := ⟨initial_capital, [initial_capital], [], none⟩
  let st1 := AdvancedBacktester.loop ex max_position_pct symbol warmup_periods
    ((closes.zip sigs).drop warmup_periods) st0
  match st1.position with
  | none => st1
  | some pos =>
      let exit_price := closes.getLastD 0
      let gross_pnl := (exit_price - pos.entry_price) * pos.position_size
      let commission := |pos.entry_price * pos.position_size| * ex.commission_pct
        + |exit_price * pos.position_size| * ex.commission_pct
      let net_pnl := gross_pnl - commission
      let tr : AdvTrade :=
        ⟨symbol, pos.entry_idx, closes.length - 1, pos.entry_price, exit_price,
         pos.position_size, gross_pnl, net_pnl,
         (exit_price - pos.entry_price) / pos.entry_price, commission,
         closes.length - pos.entry_idx, "end_of_data", pos.entry_confidence⟩
      { capital := st1.capital + net_pnl,
        equity_curve := st1.equity_curve,
        trades := st1.trades ++ [tr],
        position := none }

/-! ## Base backtest engine (src/src/backtesting/engine.py, class BacktestEngine)

`run_backtest(df, symbol, start_idx)` is embedded with the same conventions
as `AdvancedBacktester.run`.  The source calls
`self.strategy.generate_signal(current_data)` with no `try/except`, so a
`none` signal (the strategy raising) propagates and aborts the run: the
embedding returns `Except.error ()` in that case. -/

/-- A `Trade` record of `engine.py`, timestamps as bar indices. -/
structure EngTrade where
  symbol : String
  entry_idx : ℕ
  exit_idx : ℕ
  entry_price : ℚ
  exit_price : ℚ
  position_size : ℚ
  pnl : ℚ
  pnl_percent : ℚ
  reason : String
deriving DecidableEq

/-- The open-position locals of `BacktestEngine.run_backtest`. -/
structure EngPosition where
  entry_price : ℚ
  position_size : ℚ
  entry_idx : ℕ
deriving DecidableEq

/-- The mutable state of `BacktestEngine`: `self.current_capital`,
`self.equity_curve`, `self.trades` and the loop-local `position`. -/
structure EngState where
  current_capital : ℚ
  equity_curve : List ℚ
  trades : List EngTrade
  position : Option EngPosition
deriving DecidableEq

/-- One iteration of the loop of `BacktestEngine.run_backtest`.  A raising
strategy (`sig = none`) yields `Except.error ()`.  Entry requires
`signal == "BUY" and position is None and confidence > 0.5`; exit on
`signal == "SELL"` with an open position applies the pip slippage, charges
`initial_capital * commission` once, appends the trade and the realized
capital.  No equity-curve entry is appended on any other bar. -/
def BacktestEngine.step (initial_capital commission slippage_pips : ℚ)
    (symbol : String) (i : ℕ) (current_price : ℚ)
    (sig : Option (String × ℚ)) (st : EngState) : Except Unit EngState :=
  match sig with
  | none => .error ()
  | some sc =>
      let signal := sc.1
      let confidence := sc.2
      if signal = "BUY" ∧ st.position = none ∧ 1/2 < confidence then
        let position_size := initial_capital * (5/100) / current_price
        let entry_price := current_price * (1 + slippage_pips * (1/10000))
        .ok { st with position := some ⟨entry_price, position_size, i⟩ }
      else
        match st.position with
        | some pos =>
            if signal = "SELL" then
              let exit_price := current_price * (1 - slippage_pips * (1/10000))
              let pnl := (exit_price - pos.entry_price) * pos.position_size
                - initial_capital * commission
              let tr : EngTrade :=
                ⟨symbol, pos.entry_idx, i, pos.entry_price, exit_price,
                 pos.position_size, pnl,
                 (exit_price - pos.entry_price) / pos.entry_price, "signal"⟩
              .ok { current_capital := st.current_capital + pnl,
                    equity_curve := st.equity_curve ++ [st.current_capital + pnl],
                    trades := st.trades ++ [tr],
                    position := none }
            else .ok st
        | none => .ok st

/-- The loop `for i in range(start_idx, len(df))` of
`BacktestEngine.run_backtest`; a strategy exception aborts it. -/
def BacktestEngine.loop (initial_capital commission slippage_pips : ℚ)
    (symbol : String) :
    ℕ → List (ℚ × Option (String × ℚ)) → EngState → Except Unit EngState
  | _, [], st => .ok st
  | i, pr :: rest, st =>
      match BacktestEngine.step initial_capital commission slippage_pips
          symbol i pr.1 pr.2 st with
      | .error e => .error e
      | .ok st2 =>
          BacktestEngine.loop initial_capital commission slippage_pips symbol
            (i + 1) rest st2

/-- Embedding of `BacktestEngine.run_backtest`: initial state from
`__init__`, the main loop, then the forced close of any remaining position
at the raw final close with `reason = "end_of_data"` (which does append to
the equity curve in this engine). -/
def BacktestEngine.run_backtest (initial_capital commission slippage_pips : ℚ)
    (symbol : String) (closes : List ℚ) (sigs : List (Option (String × ℚ)))
    (start_idx : ℕ) : Except Unit EngState :=
  let st0 : EngState := ⟨initial_capital, [initial_capital], [], none⟩
  match BacktestEngine.loop initial_capital commission slippage_pips symbol
      start_idx ((closes.zip sigs).drop start_idx) st0 with
  | .error e => .error e
  | .ok st1 =>
      match st1.position with
      | none => .ok st1
      | some pos =>
          let exit_price := closes.getLastD 0
          let pnl := (exit_price - pos.entry_price) * pos.position_size
            - initial_capital * commission
          let tr : EngTrade :=
            ⟨symbol, pos.entry_idx, closes.length - 1, pos.entry_price,
             exit_price, pos.position_size, pnl,
             (exit_price - pos.entry_price) / pos.entry_price, "end_of_data"⟩
          .ok { current_capital := st1.current_capital + pnl,
                equity_curve := st1.equity_curve ++ [st1.current_capital + pnl],
                trades := st1.trades ++ [tr],
                position := none }

/-! ## Ensemble weights (src/src/strategies/base.py, class EnsembleStrategy) -/

/-- Python dict assignment `d[k] = v` on an insertion-ordered association
list: replace the value if the key is present, else append the pair. -/
def dictInsert (ws : List (String × ℚ)) (k : String) (v : ℚ) : List (String × ℚ) :=
  if ws.any (fun kv => kv.1 = k) then
    ws.map (fun kv => if kv.1 = k then (kv.1, v) else kv)
  else ws ++ [(k, v)]

/-- The fields of `EnsembleStrategy` the weight operations touch:
`self.sub_strategies` reduced to the strategy names, and `self.weights`. -/
structure EnsembleState where
  sub_strategies : List String
  weights : List (String × ℚ)
deriving DecidableEq

/-- Embedding of `EnsembleStrategy.add_strategy`: append the strategy, use
`1.0 / len(self.sub_strategies)` when no weight is given, and store it in
`self.weights` — with no re-normalization of the other weights. -/
def EnsembleStrategy.add_strategy (e : EnsembleState) (name : String)
    (weight : Option ℚ) : EnsembleState :=
  let subs := e.sub_strategies ++ [name]
  let w := weight.getD (1 / (subs.length : ℚ))
  ⟨subs, dictInsert e.weights name w⟩

/-- Embedding of `EnsembleStrategy.set_strategy_weight`: store the new
weight, then divide every stored weight by the total
`sum(self.weights.values())`. -/
def EnsembleStrategy.set_strategy_weight (e : EnsembleState) (name : String)
    (w : ℚ) : EnsembleState :=
  let updated := dictInsert e.weights name w
  let total := (updated.map (fun kv => kv.2)).sum
  ⟨e.sub_strategies, updated.map (fun kv => (kv.1, kv.2 / total))⟩

/-! ## Walk-forward analysis (src/src/backtesting/validator.py) -/

/-- The `while i + train_period + test_period < len(df)` loop of
`StrategyValidator.walk_forward_test`, counting how many train/test windows
are evaluated (one `results["test_results"]` entry per iteration).  `fuel`
bounds the recursion; `walk_forward_windows` supplies enough for any
positive `step`. -/
def wf_loop (L train_period test_period step : ℕ) :
    ℕ → ℕ → ℕ
  | 0, _ => 0
  | fuel + 1, i =>
      if i + train_period + test_period < L then
        wf_loop L train_period test_period step fuel (i + step) + 1
      else 0

/-- Number of walk-forward windows evaluated by
`StrategyValidator.walk_forward_test` over a series of length `L`. -/
def walk_forward_windows (L train_period test_period step : ℕ) : ℕ :=
  wf_loop L train_period test_period step (L + 1) 0

/-! ## Risk monitor (src/src/risk_management/risk.py, class RiskMonitor) -/

/-- The state of `RiskMonitor`: the configured limits and the tracked
`peak_capital`, `current_capital`, `daily_pnl`. -/
structure RiskMonitor where
  max_drawdown : ℚ
  max_daily_loss : ℚ
  max_position_size : ℚ
  peak_capital : ℚ
  current_capital : ℚ
  daily_pnl : ℚ
deriving DecidableEq

/-- `RiskMonitor(...)` construction with the default limits: peak and
current capital start at 1.0, daily P&L at 0. -/
def riskMonitorInit : RiskMonitor := ⟨1/5, 1/20, 1/20, 1, 1, 0⟩

/-- Embedding of `RiskMonitor.update_capital`: set the current capital and
raise the peak when the new capital exceeds it. -/
def RiskMonitor.update_capital (m : RiskMonitor) (new_capital : ℚ) : RiskMonitor :=
  { m with current_capital := new_capital,
           peak_capital :=
             if m.peak_capital < new_capital then new_capital else m.peak_capital }

/-- Embedding of `RiskMonitor.get_current_drawdown`, including the
`peak_capital == 0` guard branch of the source. -/
def RiskMonitor.get_current_drawdown (m : RiskMonitor) : ℚ :=
  if m.peak_capital = 0 then 0
  else (m.peak_capital - m.current_capital) / m.peak_capital

/-! ## Portfolio (src/src/risk_management/risk.py, class Portfolio) -/

/-- A value of `self.positions[symbol]`, the `entry_time` as an abstract
time stamp (`pd.Timestamp.now()` at entry). -/
structure PyPosition where
  quantity : ℚ
  entry_price : ℚ
  stop_loss : ℚ
  take_profit : ℚ
  entry_time : ℕ
deriving DecidableEq

/-- A closed-trade dict appended to `Portfolio.trades`. -/
structure PortfolioTrade where
  symbol : String
  entry_price : ℚ
  exit_price : ℚ
  quantity : ℚ
  pnl : ℚ
  pnl_percent : ℚ
  entry_time : ℕ
  exit_time : ℕ
  reason : String
deriving DecidableEq

/-- The state of `Portfolio`. -/
structure Portfolio where
  initial_capital : ℚ
  current_capital : ℚ
  positions : List (String × PyPosition)
  trades : List PortfolioTrade
  equity_curve : List ℚ
deriving DecidableEq

/-- Embedding of `Portfolio.close_position`: when the symbol has no open
position the source logs a warning and returns `0.0` without touching any
state; otherwise it pops the position, computes the P&L, appends the trade
record and the new capital.  `now` stands for `pd.Timestamp.now()` at the
close. -/
def Portfolio.close_position (p : Portfolio) (symbol : String)
    (exit_price : ℚ) (exit_reason : String) (now : ℕ) : ℚ × Portfolio :=
  match p.positions.lookup symbol with
  | none => (0, p)
  | some pos =>
      let pnl := (exit_price - pos.entry_price) * pos.quantity
      let pnl_percent := (exit_price - pos.entry_price) / pos.entry_price
      let tr : PortfolioTrade :=
        ⟨symbol, pos.entry_price, exit_price, pos.quantity, pnl, pnl_percent,
         pos.entry_time, now, exit_reason⟩
      (pnl,
        { p with
          positions := p.positions.eraseP (fun kv => kv.1 == symbol),
          trades := p.trades ++ [tr],
          current_capital := p.current_capital + pnl,
          equity_curve := p.equity_curve ++ [p.current_capital + pnl] })

/-- A concrete portfolio holding one open EURUSD position, used to
instantiate hypotheses at a concrete input. -/
def samplePortfolio : Portfolio :=
  ⟨100000, 100000, [("EURUSD", ⟨1000, 11/10, 1, 12/10, 3⟩)], [], [100000]⟩

/-- What the `try/except` of `AdvancedBacktester.run` makes of a per-bar
signal outcome: an exception (`none`) becomes `("HOLD", 0.0)`, a returned
signal is kept. -/
def normSig (s : Option (String × ℚ)) : Option (String × ℚ) :=
  some (s.getD ("HOLD", 0))

/-! ## Helper lemmas -/

theorem sum_map_snd_div (l : List (String × ℚ)) (t : ℚ) :
    ((l.map (fun kv => (kv.1, kv.2 / t))).map (fun kv => kv.2)).sum
      = ((l.map (fun kv => kv.2)).sum) / t := by
  induction l with
  | nil => simp
  | cons a l ih =>
      simp only [List.map_cons, List.sum_cons, List.map_map] at *
      rw [ih, div_add_div_same]

theorem advanced_step_normSig (ex : ExecutionMetrics) (mpp : ℚ)
    (symbol : String) (i : ℕ) (price : ℚ) (s : Option (String × ℚ))
    (st : AdvState) :
    AdvancedBacktester.step ex mpp symbol i price (normSig s) st
      = AdvancedBacktester.step ex mpp symbol i price s st := by
  cases s <;> rfl

theorem advanced_loop_normSig (ex : ExecutionMetrics) (mpp : ℚ)
    (symbol : String) :
    ∀ (pairs : List (ℚ × Option (String × ℚ))) (i : ℕ) (st : AdvState),
    AdvancedBacktester.loop ex mpp symbol i (pairs.map (Prod.map id normSig)) st
      = AdvancedBacktester.loop ex mpp symbol i pairs st := by
  intro pairs
  induction pairs with
  | nil => intro i st; rfl
  | cons pr rest ih =>
      intro i st
      obtain ⟨price, s⟩ := pr
      simp only [List.map_cons, Prod.map_apply, id_eq, AdvancedBacktester.loop]
      rw [advanced_step_normSig, ih]

theorem advanced_step_hold (ex : ExecutionMetrics) (mpp : ℚ)
    (symbol : String) (i : ℕ) (price : ℚ) (st : AdvState)
    (hpos : st.position = none) :
    AdvancedBacktester.step ex mpp symbol i price none st
      = { st with equity_curve := st.equity_curve ++ [st.capital] } := by
  unfold AdvancedBacktester.step
  simp [hpos]

theorem advanced_loop_hold (ex : ExecutionMetrics) (mpp : ℚ)
    (symbol : String) :
    ∀ (pairs : List (ℚ × Option (String × ℚ))) (i : ℕ) (st : AdvState),
    (∀ pr ∈ pairs, pr.2 = none) → st.position = none →
    AdvancedBacktester.loop ex mpp symbol i pairs st
      = { st with equity_curve :=
            st.equity_curve ++ List.replicate pairs.length st.capital } := by
  intro pairs
  induction pairs with
  | nil => intro i st _ _; simp [AdvancedBacktester.loop]
  | cons pr rest ih =>
      intro i st hall hpos
      obtain ⟨price, s⟩ := pr
      have hs : s = none := hall (price, s) (List.mem_cons_self _ _)
      subst hs
      obtain ⟨cap, eqc, trs, pos⟩ := st
      simp only at hpos
      subst hpos
      simp only [AdvancedBacktester.loop]
      rw [advanced_step_hold ex mpp symbol i price _ rfl,
        ih (i + 1) _ (fun pr h => hall pr (List.mem_cons_of_mem _ h)) rfl]
      simp [List.append_assoc, List.replicate_succ]

/-! ## Claim theorems -/

/-- Claim C1: the claim states that after every run the equity curve has
exactly `bars_processed + 1` entries, trade or no trade.  The code refutes
it: `AdvancedBacktester.run` appends twice on a bar whose SELL signal
closes a trade (once in the exit branch, once in the unconditional
per-bar update), so a 2-bar run with one BUY and one SELL produces 4
entries instead of 3; and `BacktestEngine.run_backtest` appends only when
a trade closes, so a 2-bar run with only HOLD signals keeps the single
seed entry instead of 3. -/
theorem C1_equity_curve_eval :
    ((AdvancedBacktester.run defaultExecution (1/50) 100000 "STOCK" [1, 1]
        [some ("BUY", 1), some ("SELL", 1)] 0).equity_curve.length = 4
      ∧ (4 : ℕ) ≠ 2 + 1)
    ∧ (BacktestEngine.run_backtest 100000 (1/5000) 1 "EURUSD" [1, 1]
        (List.replicate 2 (some ("HOLD", (0 : ℚ)))) 0
          = .ok ⟨100000, [100000], [], none⟩
      ∧ (([100000] : List ℚ).length = 1 ∧ (1 : ℕ) ≠ 2 + 1)) := by
  refine ⟨⟨?_, by decide⟩, rfl, by simp, by decide⟩
  have h0 : AdvancedBacktester.step defaultExecution (1/50) "STOCK" 0 1
      (some ("BUY", 1)) ⟨100000, [100000], [], none⟩
      = ⟨100000, [100000, 4999964997/50000], [],
          some ⟨100035003/100000000, 2000, 0, 1⟩⟩ := by
    simp [AdvancedBacktester.step, ExecutionMetrics.get_slippage_multiplier,
      defaultExecution]
    norm_num
  unfold AdvancedBacktester.run
  simp only [List.zip, List.zipWith, List.drop, AdvancedBacktester.loop]
  rw [h0]
  simp [AdvancedBacktester.step, ExecutionMetrics.get_slippage_multiplier,
    defaultExecution]

/-- Claim C2 counterexample: in `BacktestEngine.run_backtest` the
strategy's signal call is not wrapped in `try/except`, so a strategy that
raises (`none`) on the very first processed bar aborts the run instead of
being treated as HOLD — refuting the claim for this engine. -/
theorem C2_counterexample :
    BacktestEngine.run_backtest 100000 (1/5000) 1 "EURUSD" [1] [none] 0
      = .error () := rfl

/-- Claim C2 (amended): in `AdvancedBacktester.run` an exception raised by
the signal function on a bar is caught and treated exactly as
`("HOLD", 0.0)` for that bar (replacing every raising bar by an explicit
HOLD leaves the whole run unchanged), and a strategy that raises on every
bar yields a completed run with zero trades and unchanged capital;
`BacktestEngine.run_backtest` does not catch (see the counterexample). -/
theorem C2_strategy_exception_amended (ex : ExecutionMetrics)
    (max_position_pct initial_capital : ℚ) (symbol : String)
    (closes : List ℚ) (sigs : List (Option (String × ℚ))) (warmup : ℕ) :
    (AdvancedBacktester.run ex max_position_pct initial_capital symbol closes
        (sigs.map normSig) warmup
      = AdvancedBacktester.run ex max_position_pct initial_capital symbol
        closes sigs warmup)
    ∧ (AdvancedBacktester.run ex max_position_pct initial_capital symbol
        closes (List.replicate closes.length none) warmup).trades = []
    ∧ (AdvancedBacktester.run ex max_position_pct initial_capital symbol
        closes (List.replicate closes.length none) warmup).capital
      = initial_capital := by
  have hall : ∀ pr ∈ (closes.zip
      (List.replicate closes.length (none : Option (String × ℚ)))).drop warmup,
      pr.2 = none := by
    intro pr hdrop
    have hz := List.mem_of_mem_drop hdrop
    obtain ⟨a, b⟩ := pr
    exact List.eq_of_mem_replicate (List.of_mem_zip hz).2
  have hhold := advanced_loop_hold ex max_position_pct symbol
    ((closes.zip (List.replicate closes.length none)).drop warmup)
    warmup ⟨initial_capital, [initial_capital], [], none⟩ hall rfl
  refine ⟨?_, ?_, ?_⟩
  · simp only [AdvancedBacktester.run, List.zip_map_right, ← List.map_drop,
      advanced_loop_normSig]
  · simp [AdvancedBacktester.run, hhold]
  · simp [AdvancedBacktester.run, hhold]

/-- Claim C3: the claim (and the repository's own test
`test_sharpe_ratio_empty_series`) says the Sharpe computation must signal
an explicit error when the standard deviation is zero or there are fewer
than two returns.  The code does not: `calculate_sharpe_ratio` evaluates
the float expression unconditionally, yielding NaN on an empty or
single-return series and +inf on a constant series with positive excess
mean — never an error. -/
theorem C3_sharpe_no_error_eval :
    calculate_sharpe_ratio [] (1/50) 252 = SharpeOutcome.nan
    ∧ calculate_sharpe_ratio [1/1000] (1/50) 252 = SharpeOutcome.nan
    ∧ calculate_sharpe_ratio [1/1000, 1/1000, 1/1000] (1/50) 252
      = SharpeOutcome.posInf := by
  refine ⟨?_, ?_, ?_⟩ <;>
    norm_num [calculate_sharpe_ratio, seriesMean, seriesVarSample]

/-- Claim C4: the claim (and the repository's own test
`test_profit_factor_no_losses`) says the profit factor is unbounded when
there are gains and no losses.  The code computes 150/50 = 3 on the
mixed example but returns 0.0 — a finite number, and the very value the
spec says must not be silently returned — when there are no losses. -/
theorem C4_profit_factor_eval :
    calculate_profit_factor [100, 50, -30, -20] = 3
    ∧ calculate_profit_factor [100, 50, 75] = 0 := by
  norm_num [calculate_profit_factor]

/-- Claim C5 counterexample: the claim says a SELL keeps the spread
multiplier `1 + spread_bps/10000` and only inverts the slippage factor;
the code instead returns the reciprocal of the whole BUY product, so at
the default 2 bps slippage and 1.5 bps spread the two differ. -/
theorem C5_counterexample :
    defaultExecution.get_slippage_multiplier "sell"
      ≠ (1 / (1 + defaultExecution.slippage_bps / 10000))
        * (1 + defaultExecution.spread_bps / 10000) := by
  simp only [ExecutionMetrics.get_slippage_multiplier, defaultExecution]
  rw [if_neg (by decide)]
  norm_num

/-- Claim C5 (amended): the BUY fill multiplier is
`(1 + slippage_bps/10000) * (1 + spread_bps/10000)` and the SELL
multiplier is the reciprocal of that whole product, so a raw price is
divided by the BUY product on a SELL fill. -/
theorem C5_fill_price_amended (ex : ExecutionMetrics) (raw : ℚ)
    (h : (1 + ex.slippage_bps / 10000) * (1 + ex.spread_bps / 10000) ≠ 0) :
    ex.get_slippage_multiplier "buy"
      = (1 + ex.slippage_bps / 10000) * (1 + ex.spread_bps / 10000)
    ∧ ex.get_slippage_multiplier "sell" * ex.get_slippage_multiplier "buy" = 1
    ∧ raw * ex.get_slippage_multiplier "sell"
      = raw / ((1 + ex.slippage_bps / 10000) * (1 + ex.spread_bps / 10000)) := by
  unfold ExecutionMetrics.get_slippage_multiplier
  refine ⟨by simp, ?_, ?_⟩
  · simp only [if_pos rfl]
    rw [if_neg (by decide)]
    exact one_div_mul_cancel h
  · rw [if_neg (by decide)]
    exact mul_one_div raw _

/-- Witness for C5: the amended statement instantiated at the default
execution metrics and a raw price of 100. -/
theorem C5_fill_price_witness :
    ((1 + defaultExecution.slippage_bps / 10000)
        * (1 + defaultExecution.spread_bps / 10000) ≠ 0)
    ∧ (defaultExecution.get_slippage_multiplier "buy"
        = (1 + defaultExecution.slippage_bps / 10000)
          * (1 + defaultExecution.spread_bps / 10000)
      ∧ defaultExecution.get_slippage_multiplier "sell"
          * defaultExecution.get_slippage_multiplier "buy" = 1
      ∧ (100 : ℚ) * defaultExecution.get_slippage_multiplier "sell"
        = 100 / ((1 + defaultExecution.slippage_bps / 10000)
            * (1 + defaultExecution.spread_bps / 10000))) :=
  ⟨by norm_num [defaultExecution],
   C5_fill_price_amended defaultExecution 100 (by norm_num [defaultExecution])⟩

theorem wf_loop_formula (L : ℕ) :
    ∀ (fuel i : ℕ), L - (i + 315) ≤ fuel * 21 →
    wf_loop L 252 63 21 fuel i = (L - (i + 315) + 20) / 21 := by
  intro fuel
  induction fuel with
  | zero =>
      intro i h
      simp only [wf_loop]
      omega
  | succ n ih =>
      intro i h
      by_cases hc : i + 252 + 63 < L
      · simp only [wf_loop, if_pos hc]
        rw [ih (i + 21) (by omega)]
        omega
      · simp only [wf_loop, if_neg hc]
        omega

/-- Claim C6 counterexample: over a series of length 315 the claim's
formula `floor((L − 252 − 63)/21) + 1` gives 1 (the quantity is 0, not
negative), but the strict `<` in the loop guard
`while i + train_period + test_period < len(df)` evaluates no window. -/
theorem C6_counterexample :
    walk_forward_windows 315 252 63 21 = 0
    ∧ ((315 - 252 - 63 : Int) / 21 + 1 = 1) := by
  exact ⟨by decide, by decide⟩

/-- Claim C6 (amended): with `train=252, test=63, step=21` the loop
evaluates `⌈max(L − 315, 0) / 21⌉` windows, i.e.
`floor((L − 316)/21) + 1` when `L ≥ 316` and 0 when `L ≤ 315`: because the
guard is strict, a series of length exactly `train + test` yields no
window.  In ℕ-arithmetic the count is `(L - 315 + 20) / 21`. -/
theorem C6_walk_forward_windows_amended : ∀ L : ℕ,
    walk_forward_windows L 252 63 21 = (L - 315 + 20) / 21 := by
  intro L
  unfold walk_forward_windows
  rw [wf_loop_formula L (L + 1) 0 (by omega)]

/-- Claim C7 counterexample: with `win_rate=0.55, avg_win=1.5,
avg_loss=1.0, kelly_fraction=0.25` the code (and the claim's own formula)
yields `0.25 × (0.55×1.5 − 0.45×1.0)/1.5 = 0.0625`, not ≈ 0.1375: the
claimed numeric value is off by 0.075. -/
theorem C7_counterexample :
    PositionSizer.kelly_criterion (11/20) (3/2) 1 (1/4) = 1/16
    ∧ ¬ |PositionSizer.kelly_criterion (11/20) (3/2) 1 (1/4) - 1375/10000|
        ≤ 1/100 := by
  have h : PositionSizer.kelly_criterion (11/20) (3/2) 1 (1/4) = 1/16 := by
    norm_num [PositionSizer.kelly_criterion]
  refine ⟨h, ?_⟩
  rw [h, abs_of_neg (by norm_num)]
  norm_num

/-- Claim C7 (amended): Kelly position sizing returns
`clamp(kelly_fraction × (win_rate·avg_win − (1−win_rate)·avg_loss)/avg_win, 0, 1)`,
returns 0 whenever `avg_loss == 0` or `win_rate == 0`, and the quoted
inputs yield exactly 0.0625 (= 1/16), clamped into [0,1]. -/
theorem C7_kelly_amended :
    (∀ win_rate avg_win avg_loss kelly_fraction : ℚ,
      PositionSizer.kelly_criterion win_rate avg_win avg_loss kelly_fraction
        = if avg_loss = 0 ∨ win_rate = 0 then 0
          else clamp (kelly_fraction
            * ((win_rate * avg_win - (1 - win_rate) * avg_loss) / avg_win)) 0 1)
    ∧ PositionSizer.kelly_criterion (11/20) (3/2) 1 (1/4) = 1/16 := by
  constructor
  · intro wr aw al kf
    unfold PositionSizer.kelly_criterion clamp
    by_cases h : al = 0 ∨ wr = 0
    · simp only [if_pos h]
    · simp only [if_neg h]
      ring_nf
  · norm_num [PositionSizer.kelly_criterion]

/-- Claim C8 counterexample: `EnsembleStrategy.add_strategy` also sets a
sub-strategy's weight but does not re-normalize: adding a second strategy
with the default weight to an ensemble whose single strategy has weight
1.0 leaves the stored weights summing to 1.5. -/
theorem C8_counterexample :
    (((EnsembleStrategy.add_strategy ⟨["A"], [("A", 1)]⟩ "B" none).weights.map
        (fun kv => kv.2)).sum = 3/2)
    ∧ (3/2 : ℚ) ≠ 1 := by
  constructor
  · simp [EnsembleStrategy.add_strategy, dictInsert]
    norm_num
  · norm_num

/-- Claim C8 (amended): after every `set_strategy_weight` call whose
updated raw weights have a nonzero total, the stored weights sum to 1.0
(the zero-total case raises `ZeroDivisionError` in Python);
`add_strategy`, although it also stores a weight, does not re-normalize
(see the counterexample). -/
theorem C8_set_weight_amended (e : EnsembleState) (name : String) (w : ℚ)
    (h : ((dictInsert e.weights name w).map (fun kv => kv.2)).sum ≠ 0) :
    (((EnsembleStrategy.set_strategy_weight e name w).weights).map
      (fun kv => kv.2)).sum = 1 := by
  unfold EnsembleStrategy.set_strategy_weight
  simp only
  rw [sum_map_snd_div]
  exact div_self h

/-- Witness for C8: setting strategy B's weight to 3 in a two-strategy
ensemble with raw weights 1 and 1. -/
theorem C8_set_weight_witness :
    (((dictInsert ([("A", 1), ("B", 1)] : List (String × ℚ)) "B" 3).map
        (fun kv => kv.2)).sum ≠ 0)
    ∧ (((EnsembleStrategy.set_strategy_weight ⟨["A", "B"], [("A", 1), ("B", 1)]⟩
        "B" 3).weights).map (fun kv => kv.2)).sum = 1 :=
  ⟨by simp [dictInsert]; norm_num,
   C8_set_weight_amended ⟨["A", "B"], [("A", 1), ("B", 1)]⟩ "B" 3
     (by simp [dictInsert]; norm_num)⟩

/-- Claim C9: `Portfolio.close_position` on a symbol with no open position
returns 0.0 and leaves the whole portfolio state — capital, positions,
trades and equity curve — unchanged. -/
theorem C9_close_position_missing (p : Portfolio) (symbol : String)
    (exit_price : ℚ) (exit_reason : String) (now : ℕ)
    (h : p.positions.lookup symbol = none) :
    Portfolio.close_position p symbol exit_price exit_reason now = (0, p) := by
  unfold Portfolio.close_position
  rw [h]

/-- Witness for C9: closing GBPUSD on a portfolio that only holds a
EURUSD position. -/
theorem C9_close_position_witness :
    (samplePortfolio.positions.lookup "GBPUSD" = none)
    ∧ Portfolio.close_position samplePortfolio "GBPUSD" 2 "manual" 7
      = (0, samplePortfolio) :=
  ⟨by decide, C9_close_position_missing samplePortfolio "GBPUSD" 2 "manual" 7
    (by decide)⟩

theorem riskmonitor_fold_inv : ∀ (caps : List ℚ) (m : RiskMonitor),
    m.current_capital ≤ m.peak_capital → 1 ≤ m.peak_capital →
    (caps.foldl RiskMonitor.update_capital m).current_capital
        ≤ (caps.foldl RiskMonitor.update_capital m).peak_capital
    ∧ 1 ≤ (caps.foldl RiskMonitor.update_capital m).peak_capital := by
  intro caps
  induction caps with
  | nil => intro m h1 h2; exact ⟨h1, h2⟩
  | cons c rest ih =>
      intro m h1 h2
      simp only [List.foldl_cons]
      apply ih
      · simp only [RiskMonitor.update_capital]
        split_ifs with hlt
        · exact le_refl c
        · exact le_of_not_lt hlt
      · simp only [RiskMonitor.update_capital]
        split_ifs with hlt
        · linarith
        · exact h2

/-- Claim C10: starting from the `RiskMonitor` initial state, after any
sequence of `update_capital` calls the peak capital dominates the current
capital and stays at least 1.0; hence the drawdown is non-negative and the
`peak_capital == 0` guard branch of `get_current_drawdown` is
unreachable. -/
theorem C10_drawdown_invariant : ∀ caps : List ℚ,
    (caps.foldl RiskMonitor.update_capital riskMonitorInit).current_capital
        ≤ (caps.foldl RiskMonitor.update_capital riskMonitorInit).peak_capital
    ∧ 1 ≤ (caps.foldl RiskMonitor.update_capital riskMonitorInit).peak_capital
    ∧ (caps.foldl RiskMonitor.update_capital riskMonitorInit).peak_capital ≠ 0
    ∧ 0 ≤ (caps.foldl RiskMonitor.update_capital
        riskMonitorInit).get_current_drawdown := by
  intro caps
  obtain ⟨h1, h2⟩ := riskmonitor_fold_inv caps riskMonitorInit
    (le_refl _) (le_refl _)
  have hne : (caps.foldl RiskMonitor.update_capital
      riskMonitorInit).peak_capital ≠ 0 := by
    intro h0
    rw [h0] at h2
    norm_num at h2
  refine ⟨h1, h2, hne, ?_⟩
  unfold RiskMonitor.get_current_drawdown
  rw [if_neg hne]
  apply div_nonneg
  · linarith
  · linarith
